import Mathlib

/-!
Verification of the universal URL router (src/assets/js/url-router.js).

The script is shallowly embedded: the browser location and the relevant
document state are explicit values, JavaScript string primitives are
modelled on `List Char` (the pages only use ASCII, where JS UTF-16 code
units coincide with characters), and the DOM side effects of a rewrite
pass are captured by returning updated anchor records.
-/

namespace UrlRouter

/-- Model of `window.location`: hostname, pathname, search ("" or starting
with a question mark) and hash ("" or starting with a hash sign). -/
structure Location where
  hostname : String
  pathname : String
  search : String
  hash : String
  deriving DecidableEq

/-- Presence of the two metadata markers the script queries:
document.querySelector of a meta element named "vercel" resp. "netlify". -/
structure DocumentMeta where
  hasVercelMeta : Bool
  hasNetlifyMeta : Bool
  deriving DecidableEq

/-- JS `a.startsWith(b)` on character lists. -/
def charsStartWith : List Char → List Char → Bool
  | _, [] => true
  | [], _ :: _ => false
  | c :: cs, d :: ds => c == d && charsStartWith cs ds

/-- JS `String.prototype.startsWith`. -/
def jsStartsWith (s p : String) : Bool :=
  charsStartWith s.data p.data

/-- JS `String.prototype.endsWith`. -/
def jsEndsWith (s p : String) : Bool :=
  charsStartWith s.data.reverse p.data.reverse

/-- JS `a.includes(b)` on character lists. -/
def charsInclude : List Char → List Char → Bool
  | [], sub => charsStartWith [] sub
  | c :: cs, sub => charsStartWith (c :: cs) sub || charsInclude cs sub

/-- JS `String.prototype.includes` (substring containment). -/
def jsIncludes (s sub : String) : Bool :=
  charsInclude s.data sub.data

/-- JS `String.prototype.toLowerCase` (ASCII range, which is all the
script compares). -/
def jsToLower (s : String) : String :=
  String.mk (s.data.map Char.toLower)

/-- JS `s.slice(0, -n)`: drop the last `n` characters. -/
def jsSliceDropRight (s : String) (n : Nat) : String :=
  String.mk (s.data.take (s.data.length - n))

/-- JS `s.slice(n)`: drop the first `n` characters. -/
def jsSliceFrom (s : String) (n : Nat) : String :=
  String.mk (s.data.drop n)

/-- JS `String.prototype.split` with a one-character separator; keeps
empty segments, and the empty string splits to one empty segment. -/
def splitOnChar (sep : Char) : List Char → List (List Char)
  | [] => [[]]
  | c :: cs =>
    let rest := splitOnChar sep cs
    if c == sep then [] :: rest
    else (c :: rest.headD []) :: rest.tail

/-- JS `s.split(sep)` producing strings. -/
def jsSplit (s : String) (sep : Char) : List String :=
  (splitOnChar sep s.data).map String.mk

/-- Environment.getBasePath (url-router.js lines 15-85).  The five cases
appear in source order; the localhost case falls through to the
production case when no local rule fires, exactly as in the script. -/
def getBasePath (loc : Location) (doc : DocumentMeta) : String :=
  -- CASE 1: Vercel detection (lines 23-26)
  if jsIncludes loc.hostname "vercel.app" || doc.hasVercelMeta then "/"
  -- CASE 2: Netlify detection (lines 31-34)
  else if jsIncludes loc.hostname "netlify.app" || doc.hasNetlifyMeta then "/"
  -- CASE 3: GitHub Pages detection (lines 40-47)
  else if jsIncludes loc.hostname "github.io" then
    if decide ((jsSplit loc.pathname '/').length > 2)
        && ((jsSplit loc.pathname '/').getD 1 "" != "") then
      "/" ++ (jsSplit loc.pathname '/').getD 1 "" ++ "/"
    else "/"
  -- CASE 4: local development (lines 52-71); the possiblePaths loop
  -- checks "/Meatlovers/" then "/meatlovers/", then auto-detects
  else if (loc.hostname == "localhost" || loc.hostname == "127.0.0.1")
      && jsStartsWith loc.pathname "/Meatlovers/" then "/Meatlovers/"
  else if (loc.hostname == "localhost" || loc.hostname == "127.0.0.1")
      && jsStartsWith loc.pathname "/meatlovers/" then "/meatlovers/"
  else if (loc.hostname == "localhost" || loc.hostname == "127.0.0.1")
      && (decide ((jsSplit loc.pathname '/').length > 2)
          && ((jsSplit loc.pathname '/').getD 1 "" != "")) then
    "/" ++ (jsSplit loc.pathname '/').getD 1 "" ++ "/"
  -- CASE 5: production custom domain (lines 77-81)
  else if loc.hostname == "meatlovers.co.ke" || loc.hostname == "www.meatlovers.co.ke"
      || !(jsIncludes loc.hostname "localhost") then "/"
  -- default fallback (line 84)
  else "/"

/-- Environment.getPlatform (url-router.js lines 88-96). -/
def getPlatform (loc : Location) : String :=
  if jsIncludes loc.hostname "vercel.app" then "Vercel"
  else if jsIncludes loc.hostname "netlify.app" then "Netlify"
  else if jsIncludes loc.hostname "github.io" then "GitHub Pages"
  else if loc.hostname == "localhost" || loc.hostname == "127.0.0.1" then "Local"
  else if loc.hostname == "meatlovers.co.ke" || loc.hostname == "www.meatlovers.co.ke" then
    "Production"
  else "Unknown"

/-- Environment.getContext (url-router.js lines 99-107). -/
structure EnvContext where
  basePath : String
  platform : String
  hostname : String
  fullPath : String
  isLocal : Bool
  deriving DecidableEq

/-- Environment.getContext builds the context from the live location and
document metadata. -/
def getContext (loc : Location) (doc : DocumentMeta) : EnvContext :=
  { basePath := getBasePath loc doc
    platform := getPlatform loc
    hostname := loc.hostname
    fullPath := loc.pathname
    isLocal := getPlatform loc == "Local" }

/-- The one kind of navigation the UrlCleaner issues:
window.location.replace (no history push). -/
inductive NavKind where
  | replace
  deriving DecidableEq

/-- A navigation side effect: its kind and target URL. -/
structure NavAction where
  kind : NavKind
  url : String
  deriving DecidableEq

/-- UrlCleaner.cleanCurrentUrl (url-router.js lines 114-133).  Returns
the boolean result of the JS function together with the navigation it
performs, if any. -/
def cleanCurrentUrl (loc : Location) : Bool × Option NavAction :=
  if getPlatform loc == "Vercel" || getPlatform loc == "Netlify" then
    (false, none)
  else if jsEndsWith (jsToLower loc.pathname) ".html" then
    if (jsSliceDropRight loc.pathname 5 ++ loc.search ++ loc.hash) != loc.pathname then
      (true, some ⟨NavKind.replace, jsSliceDropRight loc.pathname 5 ++ loc.search ++ loc.hash⟩)
    else (false, none)
  else (false, none)

/-- Model of a DOM anchor as the rewriter sees it: its href attribute
(none when the attribute is absent), the data-original-href attribute,
and whether the click interceptor is attached. -/
structure Link where
  href : Option String
  dataOriginalHref : Option String
  hasClickHandler : Bool
  deriving DecidableEq

/-- The external-link test of LinkFixer.fixAllLinks (lines 148-156),
apart from the falsy test on the attribute itself. -/
def isExternalHref (href : String) : Bool :=
  jsStartsWith href "http" || jsStartsWith href "//" || jsStartsWith href "#"
    || jsStartsWith href "mailto:" || jsStartsWith href "tel:"
    || jsStartsWith href "javascript:"

/-- The body of the forEach in LinkFixer.fixAllLinks (lines 144-186) for
one anchor.  `!href` in JS is true for a missing attribute and for the
empty string.  removeEventListener followed by addEventListener leaves
exactly one handler attached. -/
def fixLink (ctx : EnvContext) (link : Link) : Link :=
  match link.href with
  | none => link
  | some href =>
    if href == "" || isExternalHref href then link
    else
      let stored := { link with dataOriginalHref := some href }
      let f1 := if jsEndsWith href ".html" then jsSliceDropRight href 5 else href
      let f2 :=
        if jsStartsWith f1 "/" then
          if ctx.platform == "Local" && ctx.basePath != "/" then
            ctx.basePath ++ jsSliceFrom f1 1
          else f1
        else f1
      let updated := { stored with href := some f2 }
      if ctx.platform != "Vercel" && ctx.platform != "Netlify" then
        { updated with hasClickHandler := true }
      else updated

/-- LinkFixer.fixAllLinks (lines 140-187): one rewrite pass over the
anchors of the document, with the context recomputed from the live
location and document metadata. -/
def fixAllLinks (loc : Location) (doc : DocumentMeta) (links : List Link) : List Link :=
  links.map (fixLink (getContext loc doc))

/-! ## Helper lemmas about the string primitives -/

/-- String data distributes over append. -/
theorem data_append : ∀ (a b : String), (a ++ b).data = a.data ++ b.data
  | ⟨_⟩, ⟨_⟩ => rfl

/-- charsStartWith is list-prefix. -/
theorem charsStartWith_iff : ∀ (a b : List Char), charsStartWith a b = true ↔ ∃ t, a = b ++ t
  | a, [] => by simp [charsStartWith]
  | [], _ :: _ => by simp [charsStartWith]
  | c :: cs, d :: ds => by
    simp only [charsStartWith, Bool.and_eq_true, beq_iff_eq, charsStartWith_iff cs ds,
      List.cons_append, List.cons.injEq]
    constructor
    · rintro ⟨rfl, t, rfl⟩
      exact ⟨t, rfl, rfl⟩
    · rintro ⟨t, rfl, h⟩
      exact ⟨rfl, t, h⟩

/-- jsStartsWith is string-prefix on the character data. -/
theorem jsStartsWith_iff (s t : String) :
    jsStartsWith s t = true ↔ ∃ u, s.data = t.data ++ u :=
  charsStartWith_iff s.data t.data

/-- jsEndsWith is string-suffix on the character data. -/
theorem jsEndsWith_iff (s t : String) :
    jsEndsWith s t = true ↔ ∃ u, s.data = u ++ t.data := by
  unfold jsEndsWith
  rw [charsStartWith_iff]
  constructor
  · rintro ⟨u, hu⟩
    refine ⟨u.reverse, ?_⟩
    have h2 := congrArg List.reverse hu
    simpa using h2
  · rintro ⟨u, hu⟩
    refine ⟨u.reverse, ?_⟩
    rw [hu]
    simp

/-- A string of the shape "/" ++ s ++ "/" starts with "/", ends with "/",
and is nonempty. -/
theorem slash_wrap (s : String) :
    jsStartsWith ("/" ++ s ++ "/") "/" = true ∧
    jsEndsWith ("/" ++ s ++ "/") "/" = true ∧
    ("/" ++ s ++ "/") ≠ "" := by
  have hd : ("/" ++ s ++ "/").data = '/' :: (s.data ++ ['/']) := by
    rw [data_append, data_append]
    rfl
  refine ⟨?_, ?_, ?_⟩
  · rw [jsStartsWith_iff, hd]
    exact ⟨s.data ++ ['/'], rfl⟩
  · rw [jsEndsWith_iff, hd]
    exact ⟨'/' :: s.data, by simp⟩
  · intro h
    have h2 := congrArg String.data h
    rw [hd] at h2
    exact List.noConfusion h2

/-- The skip branch of fixLink: a missing-or-external href leaves the
anchor untouched. -/
theorem fixLink_skip (ctx : EnvContext) (l : Link) (href : String)
    (hl : l.href = some href) (hx : (href == "" || isExternalHref href) = true) :
    fixLink ctx l = l := by
  unfold fixLink
  rw [hl]
  simp [hx]

/-- The stripped path with query and fragment appended never equals the
original path, when that path ends in ".html" case-insensitively and the
query and fragment are browser-shaped. -/
theorem clean_newUrl_ne (path q h : String)
    (hml : jsEndsWith (jsToLower path) ".html" = true)
    (hq : q = "" ∨ jsStartsWith q "?" = true)
    (hh : h = "" ∨ jsStartsWith h "#" = true) :
    jsSliceDropRight path 5 ++ q ++ h ≠ path := by
  intro heq
  obtain ⟨p, hp⟩ := (jsEndsWith_iff _ _).mp hml
  have hp' : path.data.map Char.toLower = p ++ ['.', 'h', 't', 'm', 'l'] := hp
  have hL : path.data.length = p.length + 5 := by
    have h2 := congrArg List.length hp'
    simpa using h2
  have hdata := congrArg String.data heq
  rw [data_append, data_append] at hdata
  have hslice : (jsSliceDropRight path 5).data = path.data.take p.length := by
    simp [jsSliceDropRight, hL]
  rw [hslice] at hdata
  have hqh : q.data ++ h.data = path.data.drop p.length := by
    have h2 : path.data.take p.length ++ (q.data ++ h.data)
        = path.data.take p.length ++ path.data.drop p.length := by
      rw [← List.append_assoc, hdata, List.take_append_drop]
    exact List.append_cancel_left h2
  have hmap : (path.data.drop p.length).map Char.toLower = ['.', 'h', 't', 'm', 'l'] := by
    rw [List.map_drop, hp', List.drop_left]
  rw [← hqh] at hmap
  rcases hq with hq0 | hqp
  · have hqd : q.data = [] := by rw [hq0]
    rcases hh with hh0 | hhp
    · have hhd : h.data = [] := by rw [hh0]
      rw [hqd, hhd] at hmap
      simp at hmap
    · obtain ⟨t, ht⟩ := (jsStartsWith_iff _ _).mp hhp
      rw [hqd, ht] at hmap
      simp only [List.nil_append, List.cons_append, List.map_cons, List.cons.injEq] at hmap
      exact absurd hmap.1 (by decide)
  · obtain ⟨t, ht⟩ := (jsStartsWith_iff _ _).mp hqp
    rw [ht] at hmap
    simp only [List.cons_append, List.map_cons, List.cons.injEq] at hmap
    exact absurd hmap.1 (by decide)

/-! ## Claim theorems -/

/-- C1: the spec requires the Link Rewriter to be idempotent — a second
pass on the same unmodified DOM must produce the same href, and on the
Local platform with a non-root base path the base path must not be
prepended twice.  The code rewrites from the current (already mutated)
href instead of the stored original, so on localhost with base path
"/Meatlovers/" the anchor "/menu" becomes "/Meatlovers/menu" after one
pass and "/Meatlovers/Meatlovers/menu" after two: the code contradicts
the stated invariant (the stored data-original-href is never read). -/
theorem c1_rewriter_not_idempotent :
    (fixAllLinks ⟨"localhost", "/Meatlovers/menu.html", "", ""⟩ ⟨false, false⟩
        [⟨some "/menu", none, false⟩]).map Link.href = [some "/Meatlovers/menu"] ∧
    (fixAllLinks ⟨"localhost", "/Meatlovers/menu.html", "", ""⟩ ⟨false, false⟩
        (fixAllLinks ⟨"localhost", "/Meatlovers/menu.html", "", ""⟩ ⟨false, false⟩
          [⟨some "/menu", none, false⟩])).map Link.href
      = [some "/Meatlovers/Meatlovers/menu"] := by
  decide

/-- C2: the spec requires data-original-href to be written only when not
already stored, so that it always keeps the value of the first
encounter.  The code stores it unconditionally on every pass, so after a
second pass on localhost the attribute holds the mutated value
"/Meatlovers/menu" instead of the first-encounter value "/menu". -/
theorem c2_original_href_overwritten :
    (fixAllLinks ⟨"localhost", "/Meatlovers/menu.html", "", ""⟩ ⟨false, false⟩
        [⟨some "/menu", none, false⟩]).map Link.dataOriginalHref = [some "/menu"] ∧
    (fixAllLinks ⟨"localhost", "/Meatlovers/menu.html", "", ""⟩ ⟨false, false⟩
        (fixAllLinks ⟨"localhost", "/Meatlovers/menu.html", "", ""⟩ ⟨false, false⟩
          [⟨some "/menu", none, false⟩])).map Link.dataOriginalHref
      = [some "/Meatlovers/menu"] := by
  decide

/-- C3 counterexample: for hostname "alice.github.io" and path
"/alice.github.io/repo/menu.html" the detector does not return "/repo/";
the first non-empty segment of that path is "alice.github.io". -/
theorem c3_counterexample :
    getBasePath ⟨"alice.github.io", "/alice.github.io/repo/menu.html", "", ""⟩
      ⟨false, false⟩ ≠ "/repo/" := by
  decide

/-- C3 amended: for hostname "alice.github.io" with path
"/alice.github.io/repo/menu.html" the Environment Detector returns
basePath "/alice.github.io/" — "/" plus the first non-empty path segment
plus "/", as the github.io rule prescribes. -/
theorem c3_github_basepath :
    getBasePath ⟨"alice.github.io", "/alice.github.io/repo/menu.html", "", ""⟩
      ⟨false, false⟩ = "/alice.github.io/" := by
  decide

/-- C6: for hostname "localhost" with path "/Meatlovers/menu.html" the
detector returns basePath "/Meatlovers/", and a single rewrite pass
turns an anchor with href "/menu" into "/Meatlovers/menu". -/
theorem c6_local_basepath_and_rewrite :
    getBasePath ⟨"localhost", "/Meatlovers/menu.html", "", ""⟩ ⟨false, false⟩
      = "/Meatlovers/" ∧
    (fixAllLinks ⟨"localhost", "/Meatlovers/menu.html", "", ""⟩ ⟨false, false⟩
        [⟨some "/menu", none, false⟩]).map Link.href = [some "/Meatlovers/menu"] := by
  decide

/-- C9: for every hostname, path and document metadata, the base path
computed by Environment.getBasePath is a non-empty string that begins
with "/" and ends with "/". -/
theorem c9_basepath_shape (loc : Location) (doc : DocumentMeta) :
    jsStartsWith (getBasePath loc doc) "/" = true ∧
    jsEndsWith (getBasePath loc doc) "/" = true ∧
    getBasePath loc doc ≠ "" := by
  unfold getBasePath
  repeat any_goals split
  all_goals first
    | decide
    | exact slash_wrap _

/-- C4 counterexample: with a "vercel" metadata marker but hostname
"example.com", the platform is not classified as Vercel (getPlatform
never consults the document), the Normalizer does navigate, and the
click interceptor is attached — only the basePath part of the claim
holds. -/
theorem c4_counterexample :
    getPlatform ⟨"example.com", "/menu.html", "", ""⟩ ≠ "Vercel" ∧
    getBasePath ⟨"example.com", "/menu.html", "", ""⟩ ⟨true, false⟩ = "/" ∧
    (cleanCurrentUrl ⟨"example.com", "/menu.html", "", ""⟩).fst = true ∧
    (fixLink (getContext ⟨"example.com", "/menu.html", "", ""⟩ ⟨true, false⟩)
        ⟨some "/menu", none, false⟩).hasClickHandler = true := by
  decide

/-- C4 amended: a "vercel" or "netlify" metadata marker forces basePath
"/", but the platform classification is computed from the hostname
alone, ignoring document metadata — so a hostname matching no rule is
still classified Unknown, the Normalizer may act and click interceptors
are attached. -/
theorem c4_amended (loc : Location) (doc : DocumentMeta)
    (h : doc.hasVercelMeta = true ∨ doc.hasNetlifyMeta = true) :
    getBasePath loc doc = "/" ∧ (getContext loc doc).platform = getPlatform loc := by
  refine ⟨?_, rfl⟩
  unfold getBasePath
  rcases h with h | h <;> simp [h]

/-- C4 witness: the amended claim at hostname "example.com" with a
vercel metadata marker. -/
theorem c4_amended_witness :
    getBasePath ⟨"example.com", "/menu.html", "", ""⟩ ⟨true, false⟩ = "/" ∧
    (getContext ⟨"example.com", "/menu.html", "", ""⟩ ⟨true, false⟩).platform =
      getPlatform ⟨"example.com", "/menu.html", "", ""⟩ :=
  c4_amended ⟨"example.com", "/menu.html", "", ""⟩ ⟨true, false⟩ (Or.inl rfl)

/-- C5: on a browser-shaped location (search empty or starting with "?",
hash empty or starting with "#"), the UrlCleaner returns false and does
not navigate on Vercel/Netlify; on every other platform it performs
exactly one replace-navigation to the ".html"-stripped path with query
string and fragment preserved and returns true when the path ends in
".html" case-insensitively, and returns false with no navigation when it
does not. -/
theorem c5_url_normalizer (loc : Location)
    (hq : loc.search = "" ∨ jsStartsWith loc.search "?" = true)
    (hh : loc.hash = "" ∨ jsStartsWith loc.hash "#" = true) :
    ((getPlatform loc = "Vercel" ∨ getPlatform loc = "Netlify") →
        cleanCurrentUrl loc = (false, none)) ∧
    (getPlatform loc ≠ "Vercel" → getPlatform loc ≠ "Netlify" →
        (jsEndsWith (jsToLower loc.pathname) ".html" = true →
            cleanCurrentUrl loc =
              (true, some ⟨NavKind.replace,
                jsSliceDropRight loc.pathname 5 ++ loc.search ++ loc.hash⟩)) ∧
        (jsEndsWith (jsToLower loc.pathname) ".html" = false →
            cleanCurrentUrl loc = (false, none))) := by
  refine ⟨?_, ?_⟩
  · intro hp
    unfold cleanCurrentUrl
    rcases hp with hp | hp <;> simp [hp]
  · intro hv hn
    have hvb : (getPlatform loc == "Vercel") = false := by
      simp [hv]
    have hnb : (getPlatform loc == "Netlify") = false := by
      simp [hn]
    constructor
    · intro hml
      have hne := clean_newUrl_ne loc.pathname loc.search loc.hash hml hq hh
      have hneb : ((jsSliceDropRight loc.pathname 5 ++ loc.search ++ loc.hash)
          != loc.pathname) = true := by
        simp [bne_iff_ne, hne]
      unfold cleanCurrentUrl
      rw [hvb, hnb]
      simp [hml, hneb]
    · intro hml
      unfold cleanCurrentUrl
      rw [hvb, hnb]
      simp [hml]

/-- C5 witness: on localhost at "/Meatlovers/menu.html" the UrlCleaner
replace-navigates to the stripped path and returns true. -/
theorem c5_url_normalizer_witness :
    cleanCurrentUrl ⟨"localhost", "/Meatlovers/menu.html", "", ""⟩ =
      (true, some ⟨NavKind.replace,
        jsSliceDropRight "/Meatlovers/menu.html" 5 ++ "" ++ ""⟩) :=
  ((c5_url_normalizer ⟨"localhost", "/Meatlovers/menu.html", "", ""⟩
      (Or.inl rfl) (Or.inl rfl)).2 (by decide) (by decide)).1 (by decide)

/-- C7 counterexample: hostname "example.com" reaches rule 5 (no
vercel.app, netlify.app or github.io substring, not localhost or
127.0.0.1, and does not contain "localhost"), yet getPlatform classifies
it as "Unknown", not "Production". -/
theorem c7_counterexample :
    jsIncludes "example.com" "vercel.app" = false ∧
    jsIncludes "example.com" "netlify.app" = false ∧
    jsIncludes "example.com" "github.io" = false ∧
    ("example.com" : String) ≠ "localhost" ∧
    ("example.com" : String) ≠ "127.0.0.1" ∧
    jsIncludes "example.com" "localhost" = false ∧
    getPlatform ⟨"example.com", "/", "", ""⟩ ≠ "Production" := by
  decide

/-- C7 amended: every hostname that does not reach rules 1 to 4 gets
basePath "/", but Platform is "Production" only when the hostname
exactly equals the configured production domain (with or without
"www."); any other such hostname is classified "Unknown". -/
theorem c7_amended (loc : Location) (doc : DocumentMeta)
    (h1 : jsIncludes loc.hostname "vercel.app" = false)
    (h2 : jsIncludes loc.hostname "netlify.app" = false)
    (h3 : jsIncludes loc.hostname "github.io" = false)
    (h4 : loc.hostname ≠ "localhost")
    (h5 : loc.hostname ≠ "127.0.0.1")
    (h6 : doc.hasVercelMeta = false)
    (h7 : doc.hasNetlifyMeta = false) :
    getBasePath loc doc = "/" ∧
    getPlatform loc =
      (if loc.hostname == "meatlovers.co.ke" || loc.hostname == "www.meatlovers.co.ke"
        then "Production" else "Unknown") := by
  constructor
  · unfold getBasePath
    simp [h1, h2, h3, h6, h7, h4, h5]
  · unfold getPlatform
    simp [h1, h2, h3, h4, h5]

/-- C7 witness: the amended claim at hostname "example.com". -/
theorem c7_amended_witness :
    getBasePath ⟨"example.com", "/", "", ""⟩ ⟨false, false⟩ = "/" ∧
    getPlatform ⟨"example.com", "/", "", ""⟩ =
      (if ("example.com" : String) == "meatlovers.co.ke"
          || ("example.com" : String) == "www.meatlovers.co.ke"
        then "Production" else "Unknown") :=
  c7_amended ⟨"example.com", "/", "", ""⟩ ⟨false, false⟩ (by decide) (by decide)
    (by decide) (by decide) (by decide) rfl rfl

/-- C8: an anchor whose href begins with "http", "//", "#", "mailto:",
"tel:" or "javascript:" is left completely unchanged by a rewrite pass
on every platform: same href, no data-original-href stored, no click
interceptor attached. -/
theorem c8_external_links_untouched (loc : Location) (doc : DocumentMeta)
    (l : Link) (href : String) (hl : l.href = some href)
    (hx : jsStartsWith href "http" = true ∨ jsStartsWith href "//" = true ∨
        jsStartsWith href "#" = true ∨ jsStartsWith href "mailto:" = true ∨
        jsStartsWith href "tel:" = true ∨ jsStartsWith href "javascript:" = true) :
    fixLink (getContext loc doc) l = l := by
  apply fixLink_skip _ _ href hl
  have hxb : isExternalHref href = true := by
    unfold isExternalHref
    rcases hx with h | h | h | h | h | h <;> simp [h]
  simp [hxb]

/-- C8 witness: a mailto link on localhost is untouched. -/
theorem c8_external_links_untouched_witness :
    fixLink (getContext ⟨"localhost", "/Meatlovers/menu.html", "", ""⟩ ⟨false, false⟩)
        ⟨some "mailto:info@meatlovers.co.ke", none, false⟩ =
      ⟨some "mailto:info@meatlovers.co.ke", none, false⟩ :=
  c8_external_links_untouched ⟨"localhost", "/Meatlovers/menu.html", "", ""⟩
    ⟨false, false⟩ ⟨some "mailto:info@meatlovers.co.ke", none, false⟩
    "mailto:info@meatlovers.co.ke" rfl
    (Or.inr (Or.inr (Or.inr (Or.inl (by decide)))))

/-- C10: any href beginning with the four characters "http" is treated
as external and skipped, even a relative page name such as
"httpd-guide.html": the anchor is returned unchanged, so its href is not
rewritten and it receives no click interceptor. -/
theorem c10_http_relative_treated_external (loc : Location) (doc : DocumentMeta)
    (l : Link) (href : String) (hl : l.href = some href)
    (hx : jsStartsWith href "http" = true) :
    fixLink (getContext loc doc) l = l := by
  apply fixLink_skip _ _ href hl
  have hxb : isExternalHref href = true := by
    unfold isExternalHref
    simp [hx]
  simp [hxb]

/-- C10 witness: "httpd-guide.html" is a relative .html page name that
begins with "http", and the rewriter leaves it untouched on localhost
where internal links would be rewritten. -/
theorem c10_http_relative_treated_external_witness :
    jsStartsWith "httpd-guide.html" "http" = true ∧
    jsEndsWith "httpd-guide.html" ".html" = true ∧
    fixLink (getContext ⟨"localhost", "/Meatlovers/menu.html", "", ""⟩ ⟨false, false⟩)
        ⟨some "httpd-guide.html", none, false⟩ =
      ⟨some "httpd-guide.html", none, false⟩ :=
  ⟨by decide, by decide,
    c10_http_relative_treated_external ⟨"localhost", "/Meatlovers/menu.html", "", ""⟩
      ⟨false, false⟩ ⟨some "httpd-guide.html", none, false⟩ "httpd-guide.html" rfl
      (by decide)⟩

end UrlRouter
